import Mathlib

/-!
Shallow embedding of the Value_Arena ledger and compliance-gated execution
subsystem (services/ai-decision): the persisted entities (wallet, position,
transaction, agent state, violation log), the decision validator rule chain
(`decision_validator.py`), the atomic trade executor (`portfolio_executor.py`),
the versioned state update (`memory_manager.py`) and the bounded retry loop of
the trading workflow (`workflows/trading_decision.py`).

Money and share quantities are modelled as rationals; calendar dates as
integer day numbers (Python `date` subtraction `.days` becomes integer
subtraction).  Fields the Python code reads with `dict.get` are `Option`s.
A database row that may be absent is an `Option`; a SQL `UPDATE ... WHERE`
that touches no row is a no-op (`Option.map`).  A Python code path that
raises inside the executor's transaction (KeyError on a missing decision
field, ZeroDivisionError in the average-cost formula) or returns `False`
makes the whole unit of work roll back: the executor returns `none` and
`execute_trade` hands back the untouched state.
-/

namespace ValueArena

/-- A row of the `stocks` catalog table, as read by the stock-pool rule
(`SELECT symbol, type FROM stocks WHERE symbol = %s AND enabled = TRUE AND
type IN ('stock', 'etf')`). -/
structure StockRow where
  symbol : String
  enabled : Bool
  type : String
  deriving DecidableEq

/-- The `wallets` row of one agent (columns touched by the core). -/
structure Wallet where
  cash_balance : ℚ
  long_term_cash : ℚ
  short_term_cash : ℚ
  reserved_cash : ℚ
  total_invested : ℚ
  total_withdrawn : ℚ
  deriving DecidableEq

/-- A `positions` row (one per agent and symbol, present only while held). -/
structure Position where
  symbol : String
  quantity : ℚ
  average_cost : ℚ
  position_type : String
  first_buy_date : Option ℤ
  deriving DecidableEq

/-- A `transactions` row as written by `_record_transaction`. -/
structure Transaction where
  symbol : String
  action : String
  quantity : ℚ
  price : ℚ
  total_amount : ℚ
  position_type : Option String
  deriving DecidableEq

/-- A trade-quota jsonb object `{used, limit, month/week}`; the json keys may
be absent, hence the `Option` fields (the validator defaults them with
`quota.get('used', 0)` / `quota.get('limit', 5)`). -/
structure TradeQuota where
  used : Option ℤ
  limit : Option ℤ
  period : Option String
  deriving DecidableEq

/-- The `ai_state` row of one agent (fields the core reads or patches). -/
structure AgentState where
  monthly_trade_quota : TradeQuota
  weekly_trade_quota : TradeQuota
  investment_thesis : String
  market_view : String
  state_version : ℤ
  deriving DecidableEq

/-- A `compliance_violations` row as written by `_log_violation`.  The
violation type is passed through verbatim from the validator result. -/
structure ComplianceViolation where
  violation_type : Option String
  detection_method : String
  severity : String
  deriving DecidableEq

/-- The oracle's parsed decision dictionary; every field may be missing. -/
structure Decision where
  decision_type : Option String
  symbol : Option String
  quantity : Option ℚ
  price : Option ℚ
  position_type : Option String
  deriving DecidableEq

/-- The per-agent slice of the database the core reads and mutates. -/
structure SystemState where
  stocks : List StockRow
  ai_state : Option AgentState
  wallet : Option Wallet
  positions : List Position
  transactions : List Transaction
  violations : List ComplianceViolation
  deriving DecidableEq

/-- `SELECT ... FROM positions WHERE agent_id = %s AND symbol = %s`. -/
def findPosition (ps : List Position) (sym : String) : Option Position :=
  ps.find? (fun p => p.symbol == sym)

/-- The positions `UPDATE` issued by `_execute_buy` on an existing row:
set `quantity` and `average_cost` where the symbol matches. -/
def updatePositionRow (ps : List Position) (sym : String) (q a : ℚ) : List Position :=
  ps.map (fun p => if p.symbol == sym then { p with quantity := q, average_cost := a } else p)

/-- The positions `UPDATE` issued by a partial `_execute_sell`: set
`quantity` where the symbol matches. -/
def updatePositionQty (ps : List Position) (sym : String) (q : ℚ) : List Position :=
  ps.map (fun p => if p.symbol == sym then { p with quantity := q } else p)

/-- `DELETE FROM positions WHERE agent_id = %s AND symbol = %s`. -/
def deletePosition (ps : List Position) (sym : String) : List Position :=
  ps.filter (fun p => !(p.symbol == sym))

/-- The wallets `UPDATE` of `_execute_buy`: debit `cash_balance` and the
sub-account selected by the decision's `position_type` (`long_term_cash`
when it equals `'LONG_TERM'`, otherwise `short_term_cash`), credit
`total_invested`. -/
def buyWalletUpdate (position_type : String) (total_amount : ℚ) (w : Wallet) : Wallet :=
  if position_type == "LONG_TERM" then
    { w with
      cash_balance := w.cash_balance - total_amount,
      long_term_cash := w.long_term_cash - total_amount,
      total_invested := w.total_invested + total_amount }
  else
    { w with
      cash_balance := w.cash_balance - total_amount,
      short_term_cash := w.short_term_cash - total_amount,
      total_invested := w.total_invested + total_amount }

/-- The wallets `UPDATE` of `_execute_sell`: credit `cash_balance` and the
sub-account selected by the position's stored `position_type`, credit
`total_withdrawn`. -/
def sellWalletUpdate (position_type : String) (total_amount : ℚ) (w : Wallet) : Wallet :=
  if position_type == "LONG_TERM" then
    { w with
      cash_balance := w.cash_balance + total_amount,
      long_term_cash := w.long_term_cash + total_amount,
      total_withdrawn := w.total_withdrawn + total_amount }
  else
    { w with
      cash_balance := w.cash_balance + total_amount,
      short_term_cash := w.short_term_cash + total_amount,
      total_withdrawn := w.total_withdrawn + total_amount }

/-- `_record_transaction`: append one immutable row to `transactions`. -/
def recordTransaction (txs : List Transaction) (sym : String) (action : String)
    (q p total : ℚ) (pt : Option String) : List Transaction :=
  txs ++ [{ symbol := sym, action := action, quantity := q, price := p,
            total_amount := total, position_type := pt }]

/-- `PortfolioExecutor._execute_buy`.  Reads the decision's `symbol`,
`quantity`, `price` and `position_type` (a missing key raises KeyError,
rolling back: `none`).  On an existing position the `position_type` must
match, the quantity accumulates and the average cost is the weighted
average `(old_qty * old_avg + total_amount) / new_qty` (a `new_qty` of zero
raises ZeroDivisionError in Python: `none`); otherwise a fresh row is
inserted with `average_cost = price` and `first_buy_date = today`.  Then
the wallet is debited and a BUY transaction row appended. -/
def execute_buy (s : SystemState) (d : Decision) (today : ℤ) : Option SystemState :=
  match d.symbol, d.quantity, d.price, d.position_type with
  | some symbol, some quantity, some price, some position_type =>
    let total_amount := quantity * price
    match findPosition s.positions symbol with
    | some p =>
      if p.position_type ≠ position_type then none
      else
        let new_quantity := p.quantity + quantity
        if new_quantity = 0 then none
        else
          some { s with
            positions := updatePositionRow s.positions symbol new_quantity
              ((p.quantity * p.average_cost + total_amount) / new_quantity),
            wallet := s.wallet.map (buyWalletUpdate position_type total_amount),
            transactions := recordTransaction s.transactions symbol "BUY"
              quantity price total_amount (some position_type) }
    | none =>
      some { s with
        positions := s.positions ++
          [{ symbol := symbol, quantity := quantity, average_cost := price,
             position_type := position_type, first_buy_date := some today }],
        wallet := s.wallet.map (buyWalletUpdate position_type total_amount),
        transactions := recordTransaction s.transactions symbol "BUY"
          quantity price total_amount (some position_type) }
  | _, _, _, _ => none

/-- `PortfolioExecutor._execute_sell`.  The position must exist and hold at
least the requested quantity (otherwise `return False`: `none`).  A full
sell deletes the row, a partial sell decrements the quantity in place
leaving `average_cost` untouched.  The wallet is credited on the account
stored in the position and a SELL transaction row is appended, tagged with
the position's `position_type`. -/
def execute_sell (s : SystemState) (d : Decision) : Option SystemState :=
  match d.symbol, d.quantity, d.price with
  | some symbol, some quantity, some price =>
    let total_amount := quantity * price
    match findPosition s.positions symbol with
    | none => none
    | some position =>
      if quantity > position.quantity then none
      else
        let new_quantity := position.quantity - quantity
        some { s with
          positions :=
            if new_quantity > 0 then updatePositionQty s.positions symbol new_quantity
            else deletePosition s.positions symbol,
          wallet := s.wallet.map (sellWalletUpdate position.position_type total_amount),
          transactions := recordTransaction s.transactions symbol "SELL"
            quantity price total_amount (some position.position_type) }
  | _, _, _ => none

/-- `PortfolioExecutor._update_trade_quota`: a jsonb patch on the `ai_state`
row setting `monthly_trade_quota.used` to `COALESCE(used, 0) + 1` and
stamping `last_updated`.  It does not touch `state_version`. -/
def quotaIncrement (q : TradeQuota) : TradeQuota :=
  { q with used := some (q.used.getD 0 + 1) }

/-- The `UPDATE ai_state ... WHERE agent_id = %s` issued by
`_update_trade_quota`; a missing row is a zero-rowcount no-op. -/
def update_trade_quota (s : SystemState) : SystemState :=
  { s with ai_state :=
      s.ai_state.map (fun a => { a with monthly_trade_quota := quotaIncrement a.monthly_trade_quota }) }

/-- `PortfolioExecutor.execute_trade`: dispatch on `decision_type`; any
value other than `'BUY'` or `'SELL'` returns failure before any write.  A
failing buy/sell rolls the transaction back (original state); a succeeding
one also increments the monthly trade quota inside the same unit of work. -/
def execute_trade (s : SystemState) (d : Decision) (today : ℤ) : Bool × SystemState :=
  match d.decision_type with
  | some "BUY" =>
    match execute_buy s d today with
    | some s1 => (true, update_trade_quota s1)
    | none => (false, s)
  | some "SELL" =>
    match execute_sell s d with
    | some s1 => (true, update_trade_quota s1)
    | none => (false, s)
  | _ => (false, s)

/-- Which ledger table a validator rule queried, table by table, in the
order the queries are issued. -/
inductive LedgerRead where
  | stocksTable
  | aiStateTable
  | walletsTable
  | positionsTable
  deriving DecidableEq

/-- One validator rule's outcome: the `(is_valid, violation_type)` pair the
Python rule returns (the formatted reason string is omitted), together with
the trace of ledger tables it read. -/
structure RuleResult where
  is_valid : Bool
  violation_type : Option String
  reads : List LedgerRead
  deriving DecidableEq

/-- The catalog query of `_validate_stock_pool`: is there an enabled row of
type `'stock'` or `'etf'` for this symbol? -/
def stockPoolHit (stocks : List StockRow) (sym : String) : Bool :=
  stocks.any (fun r => r.symbol == sym && r.enabled && (r.type == "stock" || r.type == "etf"))

/-- `DecisionValidator._validate_stock_pool`: a missing (or empty, Python
falsy) symbol is `MISSING_SYMBOL` before any query; a symbol without a
matching enabled catalog row is `INVALID_STOCK`. -/
def validate_stock_pool (stocks : List StockRow) (d : Decision) : RuleResult :=
  match d.symbol with
  | none => { is_valid := false, violation_type := some "MISSING_SYMBOL", reads := [] }
  | some sym =>
    if sym = "" then { is_valid := false, violation_type := some "MISSING_SYMBOL", reads := [] }
    else if stockPoolHit stocks sym then
      { is_valid := true, violation_type := none, reads := [.stocksTable] }
    else
      { is_valid := false, violation_type := some "INVALID_STOCK", reads := [.stocksTable] }

/-- `DecisionValidator._validate_trade_quota`: load the `ai_state` row
(`STATE_NOT_FOUND` when absent) and reject with `TRADE_QUOTA_EXCEEDED` when
`monthly_trade_quota` has `used >= limit` (json defaults 0 and 5). -/
def validate_trade_quota (ast : Option AgentState) : RuleResult :=
  match ast with
  | none => { is_valid := false, violation_type := some "STATE_NOT_FOUND", reads := [.aiStateTable] }
  | some a =>
    if a.monthly_trade_quota.used.getD 0 ≥ a.monthly_trade_quota.limit.getD 5 then
      { is_valid := false, violation_type := some "TRADE_QUOTA_EXCEEDED", reads := [.aiStateTable] }
    else
      { is_valid := true, violation_type := none, reads := [.aiStateTable] }

/-- `DecisionValidator._validate_wallet_balance`: BUY decisions only.  A
missing (or empty) `position_type` fails before the wallet query; then the
decision's `total_amount = quantity * price` (json defaults 0 and 0.0) is
compared strictly against the matching sub-account, and an unrecognized
`position_type` is `INVALID_POSITION_TYPE` (after the query). -/
def validate_wallet_balance (wallet : Option Wallet) (d : Decision) : RuleResult :=
  if d.decision_type ≠ some "BUY" then
    { is_valid := true, violation_type := none, reads := [] }
  else
    let total_amount := d.quantity.getD 0 * d.price.getD 0
    match d.position_type with
    | none => { is_valid := false, violation_type := some "MISSING_POSITION_TYPE", reads := [] }
    | some pt =>
      if pt = "" then
        { is_valid := false, violation_type := some "MISSING_POSITION_TYPE", reads := [] }
      else
        match wallet with
        | none =>
          { is_valid := false, violation_type := some "WALLET_NOT_FOUND", reads := [.walletsTable] }
        | some w =>
          if pt = "LONG_TERM" then
            if total_amount > w.long_term_cash then
              { is_valid := false, violation_type := some "INSUFFICIENT_LONG_TERM_CASH",
                reads := [.walletsTable] }
            else { is_valid := true, violation_type := none, reads := [.walletsTable] }
          else if pt = "SHORT_TERM" then
            if total_amount > w.short_term_cash then
              { is_valid := false, violation_type := some "INSUFFICIENT_SHORT_TERM_CASH",
                reads := [.walletsTable] }
            else { is_valid := true, violation_type := none, reads := [.walletsTable] }
          else
            { is_valid := false, violation_type := some "INVALID_POSITION_TYPE",
              reads := [.walletsTable] }

/-- `DecisionValidator._validate_wash_trade` (run for SELL only): the
position must exist (`POSITION_NOT_FOUND`); a LONG_TERM position must carry
a `first_buy_date` (`MISSING_FIRST_BUY_DATE`) and must have been held at
least 30 calendar days, `holding_days = today - first_buy_date`, else
`WASH_TRADE_VIOLATION`. -/
def validate_wash_trade (positions : List Position) (dsym : Option String) (today : ℤ) :
    RuleResult :=
  let hit := match dsym with
    | none => none
    | some sym => findPosition positions sym
  match hit with
  | none => { is_valid := false, violation_type := some "POSITION_NOT_FOUND",
              reads := [.positionsTable] }
  | some p =>
    if p.position_type = "LONG_TERM" then
      match p.first_buy_date with
      | none => { is_valid := false, violation_type := some "MISSING_FIRST_BUY_DATE",
                  reads := [.positionsTable] }
      | some fbd =>
        if today - fbd < 30 then
          { is_valid := false, violation_type := some "WASH_TRADE_VIOLATION",
            reads := [.positionsTable] }
        else { is_valid := true, violation_type := none, reads := [.positionsTable] }
    else { is_valid := true, violation_type := none, reads := [.positionsTable] }

/-- `DecisionValidator.validate_decision`: the four rules run in fixed
order — stock pool, trade quota, wallet balance (BUY only inside the rule),
wash trade (SELL only) — short-circuiting on the first failure; the `reads`
trace accumulates the ledger queries issued up to that point. -/
def validate_decision (stocks : List StockRow) (ast : Option AgentState)
    (wallet : Option Wallet) (positions : List Position) (d : Decision) (today : ℤ) :
    RuleResult :=
  let r1 := validate_stock_pool stocks d
  if ¬ r1.is_valid then r1
  else
    let r2 := validate_trade_quota ast
    if ¬ r2.is_valid then { r2 with reads := r1.reads ++ r2.reads }
    else
      let r3 := validate_wallet_balance wallet d
      if ¬ r3.is_valid then { r3 with reads := r1.reads ++ r2.reads ++ r3.reads }
      else if d.decision_type = some "SELL" then
        let r4 := validate_wash_trade positions d.symbol today
        { r4 with reads := r1.reads ++ r2.reads ++ r3.reads ++ r4.reads }
      else
        { is_valid := true, violation_type := none, reads := r1.reads ++ r2.reads ++ r3.reads }

/-- `validate_decision` applied to the state's own ledger slice, as the
trading workflow calls it. -/
def validateState (s : SystemState) (d : Decision) (today : ℤ) : RuleResult :=
  validate_decision s.stocks s.ai_state s.wallet s.positions d today

/-- `DecisionValidator._log_violation`: append one `compliance_violations`
row with `detection_method = 'PRE_EXECUTION_CHECK'` and
`severity = 'blocked'`; written once per failed validation attempt. -/
def log_violation (s : SystemState) (vt : Option String) : SystemState :=
  { s with violations := s.violations ++
      [{ violation_type := vt, detection_method := "PRE_EXECUTION_CHECK", severity := "blocked" }] }

/-- A patch handed to `MemoryManager.update_ai_state` (`updates` dict):
only the supplied fields change. -/
structure StatePatch where
  monthly_trade_quota : Option TradeQuota
  weekly_trade_quota : Option TradeQuota
  investment_thesis : Option String
  market_view : Option String
  deriving DecidableEq

/-- The SET clause built by `update_ai_state`: apply the patched fields,
increment `state_version` by one and stamp `last_updated`. -/
def applyPatch (a : AgentState) (p : StatePatch) : AgentState :=
  { monthly_trade_quota := p.monthly_trade_quota.getD a.monthly_trade_quota,
    weekly_trade_quota := p.weekly_trade_quota.getD a.weekly_trade_quota,
    investment_thesis := p.investment_thesis.getD a.investment_thesis,
    market_view := p.market_view.getD a.market_view,
    state_version := a.state_version + 1 }

/-- `MemoryManager.update_ai_state`: a single `UPDATE ... WHERE agent_id`
(plus `AND state_version = %s` when `current_version` is supplied).  A zero
rowcount — missing row or stale version — returns failure with nothing
applied; otherwise the whole patch and the version bump apply together. -/
def update_ai_state (ast : Option AgentState) (p : StatePatch) (current_version : Option ℤ) :
    Bool × Option AgentState :=
  match ast with
  | none => (false, none)
  | some a =>
    match current_version with
    | none => (true, some (applyPatch a p))
    | some v =>
      if a.state_version = v then (true, some (applyPatch a p)) else (false, some a)

/-- One `_generate_decision` outcome inside the workflow loop: the literal
`"PARSE_ERROR"` sentinel, `None` (the oracle chose HOLD), or a parsed
decision dictionary. -/
inductive GenResult where
  | parseError
  | hold
  | trade (d : Decision)

/-- The retry loop of `TradingDecisionWorkflow.run` (attempts 1..3): a parse
error consumes the attempt; HOLD returns success immediately; a parsed
decision is validated — on failure a violation row is logged by the
validator and the loop retries, on the last failure the run still returns
success (`True`) with no trade; a valid decision goes to the executor
exactly once and its result decides the run. -/
def run_attempts (oracle : ℕ → GenResult) (today : ℤ) :
    ℕ → ℕ → SystemState → Bool × SystemState
  | _, 0, s => (true, s)
  | attempt, fuel + 1, s =>
    match oracle attempt with
    | .parseError => run_attempts oracle today (attempt + 1) fuel s
    | .hold => (true, s)
    | .trade d =>
      let v := validateState s d today
      if v.is_valid then execute_trade s d today
      else run_attempts oracle today (attempt + 1) fuel (log_violation s v.violation_type)

/-- The workflow's generate/validate/execute loop with its default bound of
3 attempts, starting at attempt 1. -/
def workflow_run (oracle : ℕ → GenResult) (today : ℤ) (s : SystemState) : Bool × SystemState :=
  run_attempts oracle today 1 3 s

/-- The wallet invariant of the spec: the split accounts and the total must
never diverge. -/
def walletInvariant (w : Wallet) : Bool :=
  w.cash_balance == w.long_term_cash + w.short_term_cash + w.reserved_cash

/-- The wallet invariant on a possibly absent wallet row. -/
def walletInvariantOpt : Option Wallet → Bool
  | none => true
  | some w => walletInvariant w

/-- The position invariant of the spec: no row has `quantity <= 0`. -/
def positionsInvariant (ps : List Position) : Bool :=
  ps.all (fun p => decide (0 < p.quantity))

/-- A whole trade sequence folded through the executor. -/
def executeAll (s : SystemState) (ds : List Decision) (today : ℤ) : SystemState :=
  ds.foldl (fun st d => (execute_trade st d today).2) s

/-- A concrete onboarded wallet: $1000 split 700/300/0. -/
def exampleWallet : Wallet :=
  { cash_balance := 1000, long_term_cash := 700, short_term_cash := 300,
    reserved_cash := 0, total_invested := 0, total_withdrawn := 0 }

/-- A concrete agent state: 2 of 5 monthly trades used, version 7. -/
def exampleAgentState : AgentState :=
  { monthly_trade_quota := { used := some 2, limit := some 5, period := some "2025-10" },
    weekly_trade_quota := { used := some 0, limit := some 5, period := none },
    investment_thesis := "", market_view := "", state_version := 7 }

/-- A concrete ledger slice: one enabled catalog stock, fresh wallet,
no positions yet. -/
def exampleState : SystemState :=
  { stocks := [{ symbol := "NVDA", enabled := true, type := "stock" }],
    ai_state := some exampleAgentState, wallet := some exampleWallet,
    positions := [], transactions := [], violations := [] }

/-- BUY 10 NVDA at $100 into the long-term account. -/
def buyTenAt100 : Decision :=
  { decision_type := some "BUY", symbol := some "NVDA", quantity := some 10,
    price := some 100, position_type := some "LONG_TERM" }

/-- BUY 10 NVDA at $200 into the long-term account. -/
def buyTenAt200 : Decision :=
  { decision_type := some "BUY", symbol := some "NVDA", quantity := some 10,
    price := some 200, position_type := some "LONG_TERM" }

/-- The state after the first example buy executed on day 0. -/
def stateAfterFirstBuy : SystemState := (execute_trade exampleState buyTenAt100 0).2

/-- A state holding 10 NVDA long term, first bought on day 71. -/
def stateHoldingTen : SystemState :=
  { exampleState with positions :=
      [{ symbol := "NVDA", quantity := 10, average_cost := 100,
         position_type := "LONG_TERM", first_buy_date := some 71 }] }

/-- SELL 15 NVDA at $120 (more than the 10 held). -/
def sellFifteen : Decision :=
  { decision_type := some "SELL", symbol := some "NVDA", quantity := some 15,
    price := some 120, position_type := none }

/-- SELL 5 NVDA at $120. -/
def sellFive : Decision :=
  { decision_type := some "SELL", symbol := some "NVDA", quantity := some 5,
    price := some 120, position_type := none }

/-- A BUY of zero shares of a symbol not yet held. -/
def buyZeroShares : Decision :=
  { decision_type := some "BUY", symbol := some "ZZZ", quantity := some 0,
    price := some 100, position_type := some "LONG_TERM" }

/-- An agent state whose monthly quota is exhausted (5 of 5 used). -/
def exhaustedAgentState : AgentState :=
  { exampleAgentState with
    monthly_trade_quota := { used := some 5, limit := some 5, period := some "2025-10" } }

/-- The example ledger slice with the monthly quota exhausted. -/
def exhaustedQuotaState : SystemState :=
  { exampleState with ai_state := some exhaustedAgentState }

/-- BUY 7 NVDA at $100 long term: exactly the $700 long-term balance. -/
def buySevenAt100 : Decision :=
  { decision_type := some "BUY", symbol := some "NVDA", quantity := some 7,
    price := some 100, position_type := some "LONG_TERM" }

/-- BUY 3 NVDA at $100 short term: exactly the $300 short-term balance. -/
def buyThreeAt100 : Decision :=
  { decision_type := some "BUY", symbol := some "NVDA", quantity := some 3,
    price := some 100, position_type := some "SHORT_TERM" }

/-- A HOLD decision reaching the executor. -/
def holdDecision : Decision :=
  { decision_type := some "HOLD", symbol := none, quantity := none,
    price := none, position_type := none }

/-- A BUY of a symbol outside the catalog: violates the stock-pool rule. -/
def buyFakeSymbol : Decision :=
  { decision_type := some "BUY", symbol := some "FAKE", quantity := some 1,
    price := some 1, position_type := some "LONG_TERM" }

/-- An oracle that proposes the same rule-violating decision on every
attempt. -/
def stubbornOracle : ℕ → GenResult := fun _ => GenResult.trade buyFakeSymbol

/-- A patch carrying a fresh monthly quota for November. -/
def examplePatch : StatePatch :=
  { monthly_trade_quota := some { used := some 0, limit := some 5, period := some "2025-11" },
    weekly_trade_quota := none, investment_thesis := none, market_view := none }

theorem walletInvariant_buyWalletUpdate (pt : String) (t : ℚ) (w : Wallet)
    (h : walletInvariant w = true) : walletInvariant (buyWalletUpdate pt t w) = true := by
  simp only [walletInvariant, buyWalletUpdate, beq_iff_eq] at *
  split <;> simp <;> linarith

theorem walletInvariant_sellWalletUpdate (pt : String) (t : ℚ) (w : Wallet)
    (h : walletInvariant w = true) : walletInvariant (sellWalletUpdate pt t w) = true := by
  simp only [walletInvariant, sellWalletUpdate, beq_iff_eq] at *
  split <;> simp <;> linarith

theorem walletInvariantOpt_map (f : Wallet → Wallet)
    (hf : ∀ w, walletInvariant w = true → walletInvariant (f w) = true)
    (ow : Option Wallet) (h : walletInvariantOpt ow = true) :
    walletInvariantOpt (ow.map f) = true := by
  cases ow with
  | none => rfl
  | some w => exact hf w h

theorem execute_buy_wallet_inv (s : SystemState) (d : Decision) (today : ℤ) (s1 : SystemState)
    (hb : execute_buy s d today = some s1) (h : walletInvariantOpt s.wallet = true) :
    walletInvariantOpt s1.wallet = true := by
  unfold execute_buy at hb
  dsimp only at hb
  split at hb
  · split at hb
    · split at hb
      · exact absurd hb (by simp)
      · split at hb
        · exact absurd hb (by simp)
        · rw [Option.some.injEq] at hb
          subst hb
          exact walletInvariantOpt_map _ (fun w hw => walletInvariant_buyWalletUpdate _ _ w hw)
            s.wallet h
    · rw [Option.some.injEq] at hb
      subst hb
      exact walletInvariantOpt_map _ (fun w hw => walletInvariant_buyWalletUpdate _ _ w hw)
        s.wallet h
  · exact absurd hb (by simp)

theorem execute_sell_wallet_inv (s : SystemState) (d : Decision) (s1 : SystemState)
    (hb : execute_sell s d = some s1) (h : walletInvariantOpt s.wallet = true) :
    walletInvariantOpt s1.wallet = true := by
  unfold execute_sell at hb
  dsimp only at hb
  split at hb
  · split at hb
    · exact absurd hb (by simp)
    · split at hb
      · exact absurd hb (by simp)
      · rw [Option.some.injEq] at hb
        subst hb
        exact walletInvariantOpt_map _ (fun w hw => walletInvariant_sellWalletUpdate _ _ w hw)
          s.wallet h
  · exact absurd hb (by simp)

/-- C1: executing a trade through the Portfolio Executor preserves the
wallet invariant `cash_balance = long_term_cash + short_term_cash +
reserved_cash`: a BUY debits `cash_balance` and exactly one sub-account by
the same `total_amount`, and a SELL credits `cash_balance` and the
position's stored sub-account by the same `total_amount`, so the equality
survives every `execute_trade` call that starts from a state satisfying
it. -/
theorem execute_trade_preserves_wallet_invariant (s : SystemState) (d : Decision) (today : ℤ)
    (h : walletInvariantOpt s.wallet = true) :
    walletInvariantOpt (execute_trade s d today).2.wallet = true := by
  unfold execute_trade
  split
  · split
    · next s1 hb =>
      show walletInvariantOpt (update_trade_quota s1).wallet = true
      exact execute_buy_wallet_inv s d today s1 hb h
    · exact h
  · split
    · next s1 hb =>
      show walletInvariantOpt (update_trade_quota s1).wallet = true
      exact execute_sell_wallet_inv s d s1 hb h
    · exact h
  · exact h

/-- C1 witness: the invariant holds on the example wallet and survives a
concrete executed BUY. -/
theorem execute_trade_preserves_wallet_invariant_witness :
    walletInvariantOpt exampleState.wallet = true ∧
    walletInvariantOpt (execute_trade exampleState buyTenAt100 0).2.wallet = true :=
  ⟨by norm_num [exampleState, exampleWallet, walletInvariantOpt, walletInvariant],
   execute_trade_preserves_wallet_invariant exampleState buyTenAt100 0
     (by norm_num [exampleState, exampleWallet, walletInvariantOpt, walletInvariant])⟩

theorem findPosition_updatePositionRow (ps : List Position) (sym : String) (q a : ℚ)
    (pos : Position) (h : findPosition ps sym = some pos) :
    findPosition (updatePositionRow ps sym q a) sym =
      some { pos with quantity := q, average_cost := a } := by
  induction ps with
  | nil => simp [findPosition] at h
  | cons hd tl ih =>
    by_cases hm : (hd.symbol == sym) = true
    · have hpos : findPosition (hd :: tl) sym = some hd := by
        simp only [findPosition, List.find?_cons, hm]
      rw [hpos, Option.some.injEq] at h
      subst h
      rw [updatePositionRow, List.map_cons, if_pos hm]
      simp only [findPosition, List.find?_cons, hm]
    · have hm0 : (hd.symbol == sym) = false := by simpa using hm
      have hneg : findPosition (hd :: tl) sym = findPosition tl sym := by
        simp only [findPosition, List.find?_cons, hm0]
      rw [hneg] at h
      rw [updatePositionRow, List.map_cons, if_neg hm]
      simp only [findPosition, List.find?_cons, hm0]
      simpa [findPosition, updatePositionRow] using ih h

/-- C2: a BUY on an existing position of the same symbol and account adds
the bought quantity and moves the average cost to the weighted average
`(old_qty * old_avg + q * p) / (old_qty + q)`, exactly as
`PortfolioExecutor._execute_buy` computes it. -/
theorem execute_buy_weighted_average (s : SystemState) (d : Decision) (today : ℤ)
    (sym : String) (q p : ℚ) (pt : String) (pos : Position)
    (htype : d.decision_type = some "BUY")
    (hs : d.symbol = some sym) (hq : d.quantity = some q) (hp : d.price = some p)
    (hpt : d.position_type = some pt)
    (hfind : findPosition s.positions sym = some pos)
    (hmatch : pos.position_type = pt)
    (hnz : pos.quantity + q ≠ 0) :
    (execute_trade s d today).1 = true ∧
    findPosition (execute_trade s d today).2.positions sym =
      some { pos with
        quantity := pos.quantity + q,
        average_cost := (pos.quantity * pos.average_cost + q * p) / (pos.quantity + q) } := by
  have hb : execute_buy s d today = some
      { s with
        positions := updatePositionRow s.positions sym (pos.quantity + q)
          ((pos.quantity * pos.average_cost + q * p) / (pos.quantity + q)),
        wallet := s.wallet.map (buyWalletUpdate pt (q * p)),
        transactions := recordTransaction s.transactions sym "BUY" q p (q * p) (some pt) } := by
    unfold execute_buy
    rw [hs, hq, hp, hpt]
    dsimp only
    rw [hfind]
    dsimp only
    rw [if_neg (by simp [hmatch]), if_neg hnz]
  unfold execute_trade
  split
  · next heq =>
    rw [htype] at heq
    rw [Option.some.injEq] at heq
    rw [hb]
    exact ⟨rfl, findPosition_updatePositionRow s.positions sym _ _ pos hfind⟩
  · next heq =>
    rw [htype] at heq
    simp at heq
  · next h1 h2 =>
    exact absurd htype h1

/-- C2 witness: BUY 10 NVDA at 100, then BUY 10 NVDA at 200 on the same
symbol and account, yields quantity 20 and average cost 150. -/
theorem execute_buy_weighted_average_witness :
    (execute_trade stateAfterFirstBuy buyTenAt200 0).1 = true ∧
    findPosition (execute_trade stateAfterFirstBuy buyTenAt200 0).2.positions "NVDA" =
      some { symbol := "NVDA", quantity := 20, average_cost := 150,
             position_type := "LONG_TERM", first_buy_date := some 0 } := by
  have h := execute_buy_weighted_average stateAfterFirstBuy buyTenAt200 0 "NVDA" 10 200
    "LONG_TERM"
    { symbol := "NVDA", quantity := 10, average_cost := 100,
      position_type := "LONG_TERM", first_buy_date := some 0 }
    rfl rfl rfl rfl rfl rfl rfl (by norm_num)
  refine ⟨h.1, ?_⟩
  rw [h.2]
  norm_num

/-- C3: a SELL requesting more shares than the position holds makes
`execute_trade` fail and roll back: it returns `false` with the whole
ledger state — positions, wallet, transactions, violations, agent state —
exactly as it was. -/
theorem oversell_leaves_state_unchanged (s : SystemState) (d : Decision) (today : ℤ)
    (sym : String) (q p : ℚ) (pos : Position)
    (htype : d.decision_type = some "SELL")
    (hs : d.symbol = some sym) (hq : d.quantity = some q) (hp : d.price = some p)
    (hfind : findPosition s.positions sym = some pos)
    (hover : pos.quantity < q) :
    execute_trade s d today = (false, s) := by
  have hsell : execute_sell s d = none := by
    unfold execute_sell
    rw [hs, hq, hp]
    dsimp only
    rw [hfind]
    dsimp only
    rw [if_pos (show q > pos.quantity from hover)]
  unfold execute_trade
  split
  · next heq =>
    rw [htype] at heq
    simp at heq
  · rw [hsell]
  · next h1 h2 =>
    exact absurd htype h2

/-- C3 witness: selling 15 shares of a position holding 10 fails and the
state is returned untouched. -/
theorem oversell_leaves_state_unchanged_witness :
    execute_trade stateHoldingTen sellFifteen 100 = (false, stateHoldingTen) :=
  oversell_leaves_state_unchanged stateHoldingTen sellFifteen 100 "NVDA" 15 120
    { symbol := "NVDA", quantity := 10, average_cost := 100,
      position_type := "LONG_TERM", first_buy_date := some 71 }
    rfl rfl rfl rfl rfl (by norm_num)

/-- C4 counterexample: `execute_trade` accepts a BUY whose quantity is 0
(nothing in the executor or the validator requires a positive quantity),
inserts a fresh position row with `quantity = 0` and reports success — so,
as stated over every sequence of executed trades, "no Position row ever
has quantity <= 0" fails. -/
theorem zero_quantity_buy_breaks_position_invariant :
    positionsInvariant exampleState.positions = true ∧
    (execute_trade exampleState buyZeroShares 0).1 = true ∧
    positionsInvariant (execute_trade exampleState buyZeroShares 0).2.positions = false := by
  refine ⟨rfl, ?_, ?_⟩ <;>
    norm_num [execute_trade, execute_buy, exampleState, buyZeroShares, findPosition,
      positionsInvariant, update_trade_quota, quotaIncrement, recordTransaction,
      buyWalletUpdate, exampleWallet, exampleAgentState]

theorem positionsInvariant_mem (ps : List Position) (h : positionsInvariant ps = true)
    (p : Position) (hp : p ∈ ps) : 0 < p.quantity := by
  simp only [positionsInvariant, List.all_eq_true, decide_eq_true_eq] at h
  exact h p hp

theorem positionsInvariant_updatePositionRow (ps : List Position) (sym : String) (q a : ℚ)
    (hq : 0 < q) (h : positionsInvariant ps = true) :
    positionsInvariant (updatePositionRow ps sym q a) = true := by
  simp only [positionsInvariant, updatePositionRow, List.all_map, List.all_eq_true,
    decide_eq_true_eq, Function.comp] at h ⊢
  intro p hp
  by_cases hm : (p.symbol == sym) = true
  · rw [if_pos hm]
    exact hq
  · rw [if_neg hm]
    exact h p hp

theorem positionsInvariant_updatePositionQty (ps : List Position) (sym : String) (q : ℚ)
    (hq : 0 < q) (h : positionsInvariant ps = true) :
    positionsInvariant (updatePositionQty ps sym q) = true := by
  simp only [positionsInvariant, updatePositionQty, List.all_map, List.all_eq_true,
    decide_eq_true_eq, Function.comp] at h ⊢
  intro p hp
  by_cases hm : (p.symbol == sym) = true
  · rw [if_pos hm]
    exact hq
  · rw [if_neg hm]
    exact h p hp

theorem positionsInvariant_deletePosition (ps : List Position) (sym : String)
    (h : positionsInvariant ps = true) :
    positionsInvariant (deletePosition ps sym) = true := by
  simp only [positionsInvariant, deletePosition, List.all_eq_true, decide_eq_true_eq] at h ⊢
  intro p hp
  exact h p (List.mem_of_mem_filter hp)

theorem execute_buy_positions_inv (s : SystemState) (d : Decision) (today : ℤ)
    (s1 : SystemState) (hb : execute_buy s d today = some s1)
    (hinv : positionsInvariant s.positions = true)
    (hq : ∀ q, d.quantity = some q → 0 < q) :
    positionsInvariant s1.positions = true := by
  unfold execute_buy at hb
  dsimp only at hb
  split at hb
  · rename_i symbol quantity price position_type hsym hqd hpr hpt
    have hqpos : 0 < quantity := hq quantity hqd
    split at hb
    · rename_i pos hfind
      split at hb
      · exact absurd hb (by simp)
      · split at hb
        · exact absurd hb (by simp)
        · rw [Option.some.injEq] at hb
          subst hb
          have hql : 0 < pos.quantity :=
            positionsInvariant_mem s.positions hinv pos (List.mem_of_find?_eq_some hfind)
          exact positionsInvariant_updatePositionRow _ _ _ _ (by linarith) hinv
    · rw [Option.some.injEq] at hb
      subst hb
      show positionsInvariant (s.positions ++ _) = true
      simp only [positionsInvariant, List.all_append, List.all_cons, List.all_nil,
        Bool.and_eq_true, decide_eq_true_eq] at hinv ⊢
      exact ⟨hinv, hqpos, trivial⟩
  · exact absurd hb (by simp)

theorem execute_sell_positions_inv (s : SystemState) (d : Decision) (s1 : SystemState)
    (hb : execute_sell s d = some s1)
    (hinv : positionsInvariant s.positions = true) :
    positionsInvariant s1.positions = true := by
  unfold execute_sell at hb
  dsimp only at hb
  split at hb
  · rename_i symbol quantity price hsym hqd hpr
    split at hb
    · exact absurd hb (by simp)
    · rename_i pos hfind
      split at hb
      · exact absurd hb (by simp)
      · rw [Option.some.injEq] at hb
        subst hb
        show positionsInvariant (if _ > (0 : ℚ) then _ else _) = true
        split
        · next hgt => exact positionsInvariant_updatePositionQty _ _ _ hgt hinv
        · exact positionsInvariant_deletePosition _ _ hinv
  · exact absurd hb (by simp)

theorem execute_trade_positions_inv (s : SystemState) (d : Decision) (today : ℤ)
    (hinv : positionsInvariant s.positions = true)
    (hq : ∀ q, d.quantity = some q → 0 < q) :
    positionsInvariant (execute_trade s d today).2.positions = true := by
  unfold execute_trade
  split
  · split
    · next s1 hb => exact execute_buy_positions_inv s d today s1 hb hinv hq
    · exact hinv
  · split
    · next s1 hb => exact execute_sell_positions_inv s d s1 hb hinv
    · exact hinv
  · exact hinv

/-- C4 (amended): provided every decision in the sequence carries a
strictly positive quantity, no position row ever reaches `quantity <= 0`:
a full SELL deletes the row, a partial SELL leaves a positive quantity, a
BUY creates or updates a row with positive quantity — over any sequence of
`execute_trade` calls starting from a state satisfying the invariant.
(Without the positivity proviso the property fails, see the
zero-quantity-BUY counterexample.) -/
theorem positive_quantity_trades_preserve_position_invariant
    (ds : List Decision) (today : ℤ) (s : SystemState)
    (hinv : positionsInvariant s.positions = true)
    (hds : ∀ d ∈ ds, ∀ q, d.quantity = some q → 0 < q) :
    positionsInvariant (executeAll s ds today).positions = true := by
  induction ds generalizing s with
  | nil => simpa [executeAll] using hinv
  | cons d tl ih =>
    rw [executeAll, List.foldl_cons]
    exact ih ((execute_trade s d today).2)
      (execute_trade_positions_inv s d today hinv (hds d (List.mem_cons_self d tl)))
      (fun d' hd' q hq' => hds d' (List.mem_cons_of_mem d hd') q hq')

/-- C4 witness for the amended statement: a concrete positive-quantity
BUY then partial SELL keeps every position quantity positive. -/
theorem positive_quantity_trades_preserve_position_invariant_witness :
    positionsInvariant (executeAll exampleState [buyTenAt100, sellFive] 0).positions = true :=
  positive_quantity_trades_preserve_position_invariant [buyTenAt100, sellFive] 0 exampleState rfl
    (by
      intro d hd q hq
      rcases hd with _ | ⟨_, h⟩
      · simp only [buyTenAt100, Option.some.injEq] at hq
        rw [← hq]
        norm_num
      · rcases h with _ | ⟨_, h⟩
        · simp only [sellFive, Option.some.injEq] at hq
          rw [← hq]
          norm_num
        · cases h)

theorem validate_stock_pool_pass (stocks : List StockRow) (d : Decision) (sym : String)
    (hs : d.symbol = some sym) (hne : sym ≠ "") (hpool : stockPoolHit stocks sym = true) :
    validate_stock_pool stocks d =
      { is_valid := true, violation_type := none, reads := [LedgerRead.stocksTable] } := by
  unfold validate_stock_pool
  rw [hs]
  dsimp only
  rw [if_neg hne, if_pos hpool]

theorem validate_trade_quota_pass (a : AgentState)
    (hq : a.monthly_trade_quota.used.getD 0 < a.monthly_trade_quota.limit.getD 5) :
    validate_trade_quota (some a) =
      { is_valid := true, violation_type := none, reads := [LedgerRead.aiStateTable] } := by
  unfold validate_trade_quota
  dsimp only
  rw [if_neg (not_le.mpr hq)]

theorem validate_trade_quota_fail (a : AgentState)
    (hq : a.monthly_trade_quota.limit.getD 5 ≤ a.monthly_trade_quota.used.getD 0) :
    validate_trade_quota (some a) =
      { is_valid := false, violation_type := some "TRADE_QUOTA_EXCEEDED",
        reads := [LedgerRead.aiStateTable] } := by
  unfold validate_trade_quota
  dsimp only
  rw [if_pos hq]

theorem validate_wallet_balance_skips_sell (wallet : Option Wallet) (d : Decision)
    (h : d.decision_type = some "SELL") :
    validate_wallet_balance wallet d =
      { is_valid := true, violation_type := none, reads := [] } := by
  unfold validate_wallet_balance
  rw [if_pos (by rw [h]; simp)]

/-- C5: a SELL of a LONG_TERM position first bought 29 days before the
current trading date is rejected with `WASH_TRADE_VIOLATION`, while the
same SELL at exactly 30 days of holding passes validation (the stock-pool,
quota and wallet rules passing throughout). -/
theorem wash_trade_thirty_day_gate (stocks : List StockRow) (a : AgentState)
    (wallet : Option Wallet) (ps29 ps30 : List Position) (d : Decision) (t : ℤ)
    (sym : String) (pos29 pos30 : Position)
    (htype : d.decision_type = some "SELL")
    (hsym : d.symbol = some sym) (hne : sym ≠ "")
    (hpool : stockPoolHit stocks sym = true)
    (hquota : a.monthly_trade_quota.used.getD 0 < a.monthly_trade_quota.limit.getD 5)
    (h29 : findPosition ps29 sym = some pos29)
    (h29t : pos29.position_type = "LONG_TERM")
    (h29d : pos29.first_buy_date = some (t - 29))
    (h30 : findPosition ps30 sym = some pos30)
    (h30t : pos30.position_type = "LONG_TERM")
    (h30d : pos30.first_buy_date = some (t - 30)) :
    ((validate_decision stocks (some a) wallet ps29 d t).is_valid = false ∧
     (validate_decision stocks (some a) wallet ps29 d t).violation_type =
       some "WASH_TRADE_VIOLATION") ∧
    (validate_decision stocks (some a) wallet ps30 d t).is_valid = true := by
  have hp1 := validate_stock_pool_pass stocks d sym hsym hne hpool
  have hp2 := validate_trade_quota_pass a hquota
  have hp3 := validate_wallet_balance_skips_sell wallet d htype
  have h29w : validate_wash_trade ps29 d.symbol t =
      { is_valid := false, violation_type := some "WASH_TRADE_VIOLATION",
        reads := [LedgerRead.positionsTable] } := by
    unfold validate_wash_trade
    rw [hsym]
    dsimp only
    rw [h29]
    dsimp only
    rw [if_pos h29t, h29d]
    dsimp only
    rw [if_pos (by omega)]
  have h30w : validate_wash_trade ps30 d.symbol t =
      { is_valid := true, violation_type := none,
        reads := [LedgerRead.positionsTable] } := by
    unfold validate_wash_trade
    rw [hsym]
    dsimp only
    rw [h30]
    dsimp only
    rw [if_pos h30t, h30d]
    dsimp only
    rw [if_neg (by omega)]
  refine ⟨⟨?_, ?_⟩, ?_⟩ <;>
    simp [validate_decision, hp1, hp2, hp3, h29w, h30w, htype]

/-- C5 witness: with the example catalog, quota and wallet, a SELL of the
NVDA long-term position first bought on day 71 is rejected on day 100
(29 days held) with `WASH_TRADE_VIOLATION`, and accepted when first bought
on day 70 (exactly 30 days held). -/
theorem wash_trade_thirty_day_gate_witness :
    ((validate_decision exampleState.stocks (some exampleAgentState) (some exampleWallet)
        stateHoldingTen.positions sellFive 100).is_valid = false ∧
     (validate_decision exampleState.stocks (some exampleAgentState) (some exampleWallet)
        stateHoldingTen.positions sellFive 100).violation_type =
       some "WASH_TRADE_VIOLATION") ∧
    (validate_decision exampleState.stocks (some exampleAgentState) (some exampleWallet)
        [{ symbol := "NVDA", quantity := 10, average_cost := 100,
           position_type := "LONG_TERM", first_buy_date := some 70 }] sellFive 100).is_valid =
      true :=
  wash_trade_thirty_day_gate exampleState.stocks exampleAgentState (some exampleWallet)
    stateHoldingTen.positions _ sellFive 100 "NVDA"
    { symbol := "NVDA", quantity := 10, average_cost := 100,
      position_type := "LONG_TERM", first_buy_date := some 71 }
    { symbol := "NVDA", quantity := 10, average_cost := 100,
      position_type := "LONG_TERM", first_buy_date := some 70 }
    rfl rfl (by decide) rfl (by decide) rfl rfl (by decide) rfl rfl (by decide)

/-- C6: with the monthly quota used up (`used >= limit`), any BUY or SELL
decision whose symbol is in the tradable pool is rejected with
`TRADE_QUOTA_EXCEEDED`, and the validator's ledger reads up to that point
are exactly the catalog and agent-state queries — the wallet and position
tables are never read, the quota rule short-circuiting ahead of the
solvency and holding-period rules. -/
theorem quota_gate_short_circuits (stocks : List StockRow) (a : AgentState)
    (wallet : Option Wallet) (positions : List Position) (d : Decision) (t : ℤ) (sym : String)
    (hsym : d.symbol = some sym) (hne : sym ≠ "")
    (hpool : stockPoolHit stocks sym = true)
    (_htype : d.decision_type = some "BUY" ∨ d.decision_type = some "SELL")
    (hused : a.monthly_trade_quota.limit.getD 5 ≤ a.monthly_trade_quota.used.getD 0) :
    (validate_decision stocks (some a) wallet positions d t).is_valid = false ∧
    (validate_decision stocks (some a) wallet positions d t).violation_type =
      some "TRADE_QUOTA_EXCEEDED" ∧
    (validate_decision stocks (some a) wallet positions d t).reads =
      [LedgerRead.stocksTable, LedgerRead.aiStateTable] ∧
    LedgerRead.walletsTable ∉ (validate_decision stocks (some a) wallet positions d t).reads ∧
    LedgerRead.positionsTable ∉ (validate_decision stocks (some a) wallet positions d t).reads := by
  have hp1 := validate_stock_pool_pass stocks d sym hsym hne hpool
  have hf2 := validate_trade_quota_fail a hused
  refine ⟨?_, ?_, ?_, ?_, ?_⟩ <;> simp [validate_decision, hp1, hf2]

/-- C6 witness: with `monthly_trade_quota = {used: 5, limit: 5}` a BUY of a
pooled symbol is rejected with `TRADE_QUOTA_EXCEEDED` having read only the
catalog and agent-state tables. -/
theorem quota_gate_short_circuits_witness :
    (validate_decision exampleState.stocks (some exhaustedAgentState) (some exampleWallet)
        [] buyTenAt100 0).is_valid = false ∧
    (validate_decision exampleState.stocks (some exhaustedAgentState) (some exampleWallet)
        [] buyTenAt100 0).violation_type = some "TRADE_QUOTA_EXCEEDED" ∧
    (validate_decision exampleState.stocks (some exhaustedAgentState) (some exampleWallet)
        [] buyTenAt100 0).reads = [LedgerRead.stocksTable, LedgerRead.aiStateTable] ∧
    LedgerRead.walletsTable ∉ (validate_decision exampleState.stocks (some exhaustedAgentState)
        (some exampleWallet) [] buyTenAt100 0).reads ∧
    LedgerRead.positionsTable ∉ (validate_decision exampleState.stocks (some exhaustedAgentState)
        (some exampleWallet) [] buyTenAt100 0).reads :=
  quota_gate_short_circuits exampleState.stocks exhaustedAgentState (some exampleWallet)
    [] buyTenAt100 0 "NVDA" rfl (by decide) rfl (Or.inl rfl) (by decide)

/-- C7 counterexample: a successful `execute_trade` run performs the
Portfolio Executor's quota increment on the `ai_state` row (`used` goes
from 2 to 3) yet leaves `state_version` at 7 — so "state_version increases
by exactly 1 on every successful update of the AgentState row, including
the Portfolio Executor's quota increment" is false on the code:
`_update_trade_quota` patches only the quota jsonb and `last_updated`. -/
theorem quota_increment_keeps_state_version :
    (execute_trade exampleState buyTenAt100 0).1 = true ∧
    (execute_trade exampleState buyTenAt100 0).2.ai_state.map
      (fun a => a.monthly_trade_quota.used) = some (some 3) ∧
    (execute_trade exampleState buyTenAt100 0).2.ai_state.map AgentState.state_version =
      some 7 ∧
    ¬ ((execute_trade exampleState buyTenAt100 0).2.ai_state.map AgentState.state_version =
      some (7 + 1)) := by
  refine ⟨?_, ?_, ?_, ?_⟩ <;>
    norm_num [execute_trade, execute_buy, exampleState, buyTenAt100, findPosition,
      update_trade_quota, quotaIncrement, recordTransaction, buyWalletUpdate,
      exampleWallet, exampleAgentState]

/-- C7 (amended): `state_version` increases by exactly 1 on every
successful `MemoryManager.update_ai_state` (with or without an expected
version), an update presenting a non-matching `current_version` is
rejected entirely with no fields applied, and the Portfolio Executor's
quota increment leaves `state_version` unchanged (it is not routed through
the versioned update). -/
theorem state_version_update_semantics (a : AgentState) (p : StatePatch) (v : ℤ)
    (s : SystemState) :
    ((update_ai_state (some a) p none).1 = true ∧
     (update_ai_state (some a) p none).2.map AgentState.state_version =
       some (a.state_version + 1)) ∧
    (v = a.state_version →
      (update_ai_state (some a) p (some v)).1 = true ∧
      (update_ai_state (some a) p (some v)).2.map AgentState.state_version =
        some (a.state_version + 1)) ∧
    (v ≠ a.state_version → update_ai_state (some a) p (some v) = (false, some a)) ∧
    (update_trade_quota s).ai_state.map AgentState.state_version =
      s.ai_state.map AgentState.state_version := by
  refine ⟨⟨rfl, rfl⟩, ?_, ?_, ?_⟩
  · intro hv
    unfold update_ai_state
    dsimp only
    rw [if_pos hv.symm]
    exact ⟨rfl, rfl⟩
  · intro hv
    unfold update_ai_state
    dsimp only
    rw [if_neg (fun hc => hv hc.symm)]
  · cases hs : s.ai_state <;> simp [update_trade_quota, hs, quotaIncrement]

/-- C7 witness for the amended statement: on the concrete agent state at
version 7, a plain update moves the version to 8, an update expecting
version 3 is rejected unchanged, and one expecting version 7 succeeds. -/
theorem state_version_update_semantics_witness :
    (update_ai_state (some exampleAgentState) examplePatch none).2.map
      AgentState.state_version = some 8 ∧
    update_ai_state (some exampleAgentState) examplePatch (some 3) =
      (false, some exampleAgentState) ∧
    (update_ai_state (some exampleAgentState) examplePatch (some 7)).1 = true := by
  have h3 := state_version_update_semantics exampleAgentState examplePatch 3 exampleState
  have h7 := state_version_update_semantics exampleAgentState examplePatch 7 exampleState
  refine ⟨?_, h3.2.2.1 (by decide), (h7.2.1 rfl).1⟩
  rw [h3.1.2]
  decide

/-- C9: the solvency rule's comparison is strict — a BUY whose
`total_amount = quantity * price` equals the matching sub-account balance
exactly (long-term and short-term alike) passes
`_validate_wallet_balance`, so an agent may spend a sub-account down to
zero. -/
theorem solvency_allows_exact_balance (w : Wallet) (d1 d2 : Decision) (q1 p1 q2 p2 : ℚ)
    (h1t : d1.decision_type = some "BUY") (h1pt : d1.position_type = some "LONG_TERM")
    (h1q : d1.quantity = some q1) (h1p : d1.price = some p1)
    (h1eq : q1 * p1 = w.long_term_cash)
    (h2t : d2.decision_type = some "BUY") (h2pt : d2.position_type = some "SHORT_TERM")
    (h2q : d2.quantity = some q2) (h2p : d2.price = some p2)
    (h2eq : q2 * p2 = w.short_term_cash) :
    (validate_wallet_balance (some w) d1).is_valid = true ∧
    (validate_wallet_balance (some w) d2).is_valid = true := by
  constructor
  · simp [validate_wallet_balance, h1t, h1pt, h1q, h1p, h1eq]
  · simp [validate_wallet_balance, h2t, h2pt, h2q, h2p, h2eq]

/-- C9 witness: on the 700/300 example wallet, BUY 7 at 100 long term
(exactly $700) and BUY 3 at 100 short term (exactly $300) both pass the
solvency rule. -/
theorem solvency_allows_exact_balance_witness :
    (validate_wallet_balance (some exampleWallet) buySevenAt100).is_valid = true ∧
    (validate_wallet_balance (some exampleWallet) buyThreeAt100).is_valid = true :=
  solvency_allows_exact_balance exampleWallet buySevenAt100 buyThreeAt100 7 100 3 100
    rfl rfl rfl rfl (by norm_num [exampleWallet]) rfl rfl rfl rfl
    (by norm_num [exampleWallet])

/-- C10: a decision whose `decision_type` is neither `'BUY'` nor `'SELL'`
(a HOLD that slipped through, an unknown tag, or a missing field) makes
`execute_trade` return failure with the entire state untouched — the
dispatch rejects it before any ledger write or quota increment. -/
theorem invalid_decision_type_rejected (s : SystemState) (d : Decision) (today : ℤ)
    (h1 : d.decision_type ≠ some "BUY") (h2 : d.decision_type ≠ some "SELL") :
    execute_trade s d today = (false, s) := by
  unfold execute_trade
  split
  · next heq => exact absurd heq h1
  · next heq => exact absurd heq h2
  · rfl

/-- C10 witness: a HOLD decision handed to the executor fails and changes
nothing. -/
theorem invalid_decision_type_rejected_witness :
    execute_trade exampleState holdDecision 0 = (false, exampleState) :=
  invalid_decision_type_rejected exampleState holdDecision 0 (by decide) (by decide)

theorem validateState_log_violation (s : SystemState) (vt : Option String) (d : Decision)
    (t : ℤ) : validateState (log_violation s vt) d t = validateState s d t := rfl

theorem run_attempts_failed_step (oracle : ℕ → GenResult) (today : ℤ) (attempt fuel : ℕ)
    (s : SystemState) (d : Decision)
    (hd : oracle attempt = GenResult.trade d)
    (hv : (validateState s d today).is_valid = false) :
    run_attempts oracle today attempt (fuel + 1) s =
      run_attempts oracle today (attempt + 1) fuel
        (log_violation s (validateState s d today).violation_type) := by
  simp only [run_attempts]
  rw [hd]
  dsimp only
  rw [if_neg (by simp [hv])]

/-- C8: against an oracle that proposes a rule-violating decision on every
attempt, the workflow's retry loop stops after its 3 attempts and reports
success with no trade: positions, wallet, transactions and agent state are
untouched, and exactly 3 compliance-violation rows were appended, one per
failed validation. -/
theorem retry_exhaustion_no_trade (oracle : ℕ → GenResult) (today : ℤ) (s : SystemState)
    (h : ∀ n, ∃ d, oracle n = GenResult.trade d ∧
      (validateState s d today).is_valid = false) :
    (workflow_run oracle today s).1 = true ∧
    (workflow_run oracle today s).2.positions = s.positions ∧
    (workflow_run oracle today s).2.wallet = s.wallet ∧
    (workflow_run oracle today s).2.transactions = s.transactions ∧
    (workflow_run oracle today s).2.ai_state = s.ai_state ∧
    (workflow_run oracle today s).2.violations.length = s.violations.length + 3 := by
  obtain ⟨d1, hd1, hv1⟩ := h 1
  obtain ⟨d2, hd2, hv2⟩ := h 2
  obtain ⟨d3, hd3, hv3⟩ := h 3
  have e1 : workflow_run oracle today s = run_attempts oracle today 2 2
      (log_violation s (validateState s d1 today).violation_type) := by
    unfold workflow_run
    rw [show (3 : ℕ) = 2 + 1 from rfl]
    exact run_attempts_failed_step oracle today 1 2 s d1 hd1 hv1
  have e2 : run_attempts oracle today 2 2
      (log_violation s (validateState s d1 today).violation_type) =
      run_attempts oracle today 3 1
        (log_violation (log_violation s (validateState s d1 today).violation_type)
          (validateState s d2 today).violation_type) := by
    rw [show (2 : ℕ) = 1 + 1 from rfl]
    have hstep := run_attempts_failed_step oracle today 2 1
      (log_violation s (validateState s d1 today).violation_type) d2 hd2
      (by rw [validateState_log_violation]; exact hv2)
    rw [hstep, validateState_log_violation]
  have e3 : run_attempts oracle today 3 1
      (log_violation (log_violation s (validateState s d1 today).violation_type)
        (validateState s d2 today).violation_type) =
      run_attempts oracle today 4 0
        (log_violation (log_violation (log_violation s
            (validateState s d1 today).violation_type)
          (validateState s d2 today).violation_type)
          (validateState s d3 today).violation_type) := by
    rw [show (1 : ℕ) = 0 + 1 from rfl]
    have hstep := run_attempts_failed_step oracle today 3 0
      (log_violation (log_violation s (validateState s d1 today).violation_type)
        (validateState s d2 today).violation_type) d3 hd3
      (by rw [validateState_log_violation, validateState_log_violation]; exact hv3)
    rw [hstep, validateState_log_violation, validateState_log_violation]
  rw [e1, e2, e3]
  refine ⟨rfl, rfl, rfl, rfl, rfl, ?_⟩
  simp only [run_attempts, log_violation, List.length_append, List.length_cons,
    List.length_nil]

/-- C8 witness: the stubborn oracle always proposing an out-of-pool BUY
ends the concrete run with success, an untouched ledger and exactly 3
logged violations. -/
theorem retry_exhaustion_no_trade_witness :
    (workflow_run stubbornOracle 0 exampleState).1 = true ∧
    (workflow_run stubbornOracle 0 exampleState).2.positions = exampleState.positions ∧
    (workflow_run stubbornOracle 0 exampleState).2.wallet = exampleState.wallet ∧
    (workflow_run stubbornOracle 0 exampleState).2.transactions =
      exampleState.transactions ∧
    (workflow_run stubbornOracle 0 exampleState).2.ai_state = exampleState.ai_state ∧
    (workflow_run stubbornOracle 0 exampleState).2.violations.length =
      exampleState.violations.length + 3 :=
  retry_exhaustion_no_trade stubbornOracle 0 exampleState
    (fun _ => ⟨buyFakeSymbol, rfl, by decide⟩)

end ValueArena
